import Mathlib

/-
  Verification development for the playwright protocol-session core.

  Shallow embedding of the request-interception router (`Page.route`,
  `Page._requestStarted` in page.ts), the binding registration/dispatch
  protocol (`Page.exposeFunction`, `PageBinding.dispatch`, `addPageBinding`),
  the target/context registry event handlers (`CRBrowser._onWindowOpen`,
  `CRBrowser._createTarget`, `CRBrowser._targetDestroyed`,
  `CRBrowser._onAttachedToTarget`, and their WebKit counterparts
  `WKBrowser._onWindowOpen`, `WKBrowser._onPageProxyCreated`,
  `WKBrowser._onPageProxyDestroyed`), and the browser-context option
  validation (`validateBrowserContextOptions`, `verifyGeolocation` in
  browserContext.ts).

  JavaScript `Map`s are embedded as association lists preserving insertion
  order; arrays are embedded as lists; exceptions are embedded with
  `Except`; side-effecting event handlers are embedded as pure functions
  returning the list of performed actions together with the updated state.
-/

namespace Playwright

/-! ## Association-list model of JavaScript `Map` -/

/-- `Map.get(key)`: the value stored at `key`, or `none` when absent. -/
def mapGet {β : Type} : List (String × β) → String → Option β
  | [], _ => none
  | (k, v) :: rest, key => if k = key then some v else mapGet rest key

/-- `Map.has(key)`. -/
def mapHas {β : Type} (m : List (String × β)) (key : String) : Bool :=
  (mapGet m key).isSome

/-- `Map.set(key, v)`: overwrite in place when the key exists, else append,
preserving insertion order as JavaScript `Map` does. -/
def mapSet {β : Type} : List (String × β) → String → β → List (String × β)
  | [], key, v => [(key, v)]
  | (k, w) :: rest, key, v =>
    if k = key then (key, v) :: rest else (k, w) :: mapSet rest key v

/-- `Map.delete(key)`: remove the entry stored at `key`, if any. -/
def mapDelete {β : Type} : List (String × β) → String → List (String × β)
  | [], _ => []
  | (k, v) :: rest, key => if k = key then rest else (k, v) :: mapDelete rest key

/-- `array.indexOf(x) !== -1` followed by `array.splice(index, 1)`:
remove the first occurrence of `x`, if any. -/
def removeFirst : List String → String → List String
  | [], _ => []
  | x :: rest, y => if x = y then rest else x :: removeFirst rest y

/-! ## Request interception router (page.ts)

`Page._routes` and `BrowserContextBase._routes` are arrays of
`{ url, handler }` entries. The URL pattern type and the matching function
`helper.urlMatches` live outside the provided sources, so the pattern type
is a type parameter and the matcher is passed in as a function. Handlers
are identified by a numeric id so that the router can report which handler
it invoked. -/

/-- One entry of `_routes`: a `{ url, handler }` pair. -/
structure RouteEntry (α : Type) where
  url : α
  handler : Nat
deriving Repr, DecidableEq

/-- `Page.route` / `BrowserContextBase.route`: `this._routes.push({ url, handler })`. -/
def route {α : Type} (routes : List (RouteEntry α)) (url : α) (handler : Nat) :
    List (RouteEntry α) :=
  routes ++ [{ url := url, handler := handler }]

/-- The observable actions of `Page._requestStarted`. -/
inductive RouteAction
  | emitRequest
  | invokeHandler (handler : Nat)
  | continueRequest
deriving Repr, DecidableEq

/-- The `for (const { url, handler } of routes) if (urlMatches(...)) ...` loop:
first entry whose pattern matches the request url, in list order. -/
def firstMatch {α : Type} (urlMatches : String → α → Bool) (requestUrl : String) :
    List (RouteEntry α) → Option (RouteEntry α)
  | [] => none
  | r :: rest =>
    if urlMatches requestUrl r.url then some r
    else firstMatch urlMatches requestUrl rest

/-- `Page._requestStarted`: emit the `Request` event; when the request has an
active route (`request._route()` non-null, embedded as `hasRoute`), scan the
page-level routes in registration order, then the context-level routes, invoke
the first matching handler and stop; when nothing matches, `route.continue()`. -/
def requestStarted {α : Type} (urlMatches : String → α → Bool) (hasRoute : Bool)
    (pageRoutes contextRoutes : List (RouteEntry α)) (requestUrl : String) :
    List RouteAction :=
  RouteAction.emitRequest ::
    (if hasRoute then
      match firstMatch urlMatches requestUrl pageRoutes with
      | some r => [RouteAction.invokeHandler r.handler]
      | none =>
        match firstMatch urlMatches requestUrl contextRoutes with
        | some r => [RouteAction.invokeHandler r.handler]
        | none => [RouteAction.continueRequest]
    else [])

theorem firstMatch_append {α : Type} (m : String → α → Bool) (u : String)
    (l₁ l₂ : List (RouteEntry α)) :
    firstMatch m u (l₁ ++ l₂) =
      match firstMatch m u l₁ with
      | some r => some r
      | none => firstMatch m u l₂ := by
  induction l₁ with
  | nil => simp [firstMatch]
  | cons r rest ih =>
    simp only [List.cons_append, firstMatch]
    by_cases h : m u r.url = true
    · simp [h]
    · simp [h, ih]

theorem firstMatch_of_prefix_no_match {α : Type} (m : String → α → Bool) (u : String)
    (pre : List (RouteEntry α)) (r : RouteEntry α) (rest : List (RouteEntry α))
    (hpre : ∀ x ∈ pre, m u x.url = false) (hr : m u r.url = true) :
    firstMatch m u (pre ++ r :: rest) = some r := by
  induction pre with
  | nil => simp [firstMatch, hr]
  | cons p ps ih =>
    have hp : m u p.url = false := hpre p (by simp)
    simp only [List.cons_append, firstMatch, hp]
    simp only [Bool.false_eq_true, if_false]
    exact ih fun x hx => hpre x (by simp [hx])

theorem firstMatch_eq_none_iff {α : Type} (m : String → α → Bool) (u : String)
    (l : List (RouteEntry α)) :
    firstMatch m u l = none ↔ ∀ r ∈ l, m u r.url = false := by
  induction l with
  | nil => simp [firstMatch]
  | cons r rest ih =>
    by_cases h : m u r.url = true
    · simp [firstMatch, h]
    · simp only [firstMatch, h, Bool.false_eq_true, if_false]
      constructor
      · intro hn x hx
        rcases List.mem_cons.mp hx with hx | hx
        · subst hx; exact Bool.eq_false_iff.mpr (fun hc => h hc)
        · exact (ih.mp hn) x hx
      · intro hall
        exact ih.mpr fun x hx => hall x (List.mem_cons_of_mem _ hx)

/-- Claim C1: on an intercepted request with an active route, the router scans
the page-level route list in registration order and invokes the handler of the
first matching entry, then stops; only when no page-level route matches does it
scan the context-level list the same way; in particular for two routes
registered in order `[R1, R2]` that both match, the handler of `R1` is
invoked and the handler of `R2` is not. -/
theorem requestStarted_first_match_wins {α : Type} (m : String → α → Bool) (u : String) :
    (∀ (pre rest ctx : List (RouteEntry α)) (r₁ : RouteEntry α),
      (∀ x ∈ pre, m u x.url = false) → m u r₁.url = true →
      requestStarted m true (pre ++ r₁ :: rest) ctx u
        = [RouteAction.emitRequest, RouteAction.invokeHandler r₁.handler])
  ∧ (∀ (page cpre crest : List (RouteEntry α)) (c : RouteEntry α),
      (∀ x ∈ page, m u x.url = false) → (∀ x ∈ cpre, m u x.url = false) →
      m u c.url = true →
      requestStarted m true page (cpre ++ c :: crest) u
        = [RouteAction.emitRequest, RouteAction.invokeHandler c.handler])
  ∧ (∀ (r₁ r₂ : RouteEntry α) (ctx : List (RouteEntry α)),
      m u r₁.url = true → m u r₂.url = true →
      requestStarted m true (route (route [] r₁.url r₁.handler) r₂.url r₂.handler) ctx u
        = [RouteAction.emitRequest, RouteAction.invokeHandler r₁.handler]
      ∧ (r₂.handler ≠ r₁.handler →
          RouteAction.invokeHandler r₂.handler ∉
            requestStarted m true (route (route [] r₁.url r₁.handler) r₂.url r₂.handler) ctx u)) := by
  refine ⟨?_, ?_, ?_⟩
  · intro pre rest ctx r₁ hpre hr₁
    rw [requestStarted, firstMatch_of_prefix_no_match m u pre r₁ rest hpre hr₁]
    simp
  · intro page cpre crest c hpage hcpre hc
    rw [requestStarted, (firstMatch_eq_none_iff m u page).mpr hpage,
      firstMatch_of_prefix_no_match m u cpre c crest hcpre hc]
    simp
  · intro r₁ r₂ ctx h₁ h₂
    have hroutes : route (route [] r₁.url r₁.handler) r₂.url r₂.handler
        = [⟨r₁.url, r₁.handler⟩, ⟨r₂.url, r₂.handler⟩] := by
      simp [route]
    have hrun : requestStarted m true
        (route (route [] r₁.url r₁.handler) r₂.url r₂.handler) ctx u
        = [RouteAction.emitRequest, RouteAction.invokeHandler r₁.handler] := by
      rw [hroutes, requestStarted]
      simp [firstMatch, h₁]
    refine ⟨hrun, fun hne hmem => ?_⟩
    rw [hrun] at hmem
    rcases List.mem_cons.mp hmem with h | h
    · exact RouteAction.noConfusion h
    · have h2 := List.mem_singleton.mp h
      exact hne (RouteAction.invokeHandler.inj h2)

/-- Witness for C1 at a concrete input: two equal-pattern routes with handlers
1 and 2, an exact-match url matcher; handler 1 fires and handler 2 does not. -/
theorem requestStarted_first_match_wins_witness :
    requestStarted (fun u p => u == p) true
        (route (route [] "https://a.example/" 1) "https://a.example/" 2) []
        "https://a.example/"
      = [RouteAction.emitRequest, RouteAction.invokeHandler 1]
    ∧ RouteAction.invokeHandler 2 ∉
        requestStarted (fun u p => u == p) true
          (route (route [] "https://a.example/" 1) "https://a.example/" 2) []
          "https://a.example/" := by
  have h := (requestStarted_first_match_wins (fun u p => u == p) "https://a.example/").2.2
    ⟨"https://a.example/", 1⟩ ⟨"https://a.example/", 2⟩ [] (by decide) (by decide)
  exact ⟨h.1, h.2 (by decide)⟩

/-- Claim C2: for every intercepted request with an active route, exactly one
of two outcomes occurs: either the single first-matching handler is invoked, or
— when no page-level and no context-level route matches — the request is
continued unmodified exactly once; never both and never neither. -/
theorem requestStarted_exactly_one_outcome {α : Type} (m : String → α → Bool)
    (page ctx : List (RouteEntry α)) (u : String) :
    ((∃ r, firstMatch m u (page ++ ctx) = some r ∧
        requestStarted m true page ctx u
          = [RouteAction.emitRequest, RouteAction.invokeHandler r.handler])
      ∨ ((∀ r ∈ page ++ ctx, m u r.url = false) ∧
          requestStarted m true page ctx u
            = [RouteAction.emitRequest, RouteAction.continueRequest]))
    ∧ (∀ h, RouteAction.invokeHandler h ∈ requestStarted m true page ctx u →
        RouteAction.continueRequest ∉ requestStarted m true page ctx u) := by
  have hsplit := firstMatch_append m u page ctx
  constructor
  · cases hp : firstMatch m u page with
    | some r =>
      refine Or.inl ⟨r, ?_, ?_⟩
      · rw [hsplit, hp]
      · rw [requestStarted, hp]
        simp
    | none =>
      cases hc : firstMatch m u ctx with
      | some r =>
        refine Or.inl ⟨r, ?_, ?_⟩
        · rw [hsplit, hp, hc]
        · rw [requestStarted, hp, hc]
          simp
      | none =>
        refine Or.inr ⟨?_, ?_⟩
        · intro r hr
          have : firstMatch m u (page ++ ctx) = none := by rw [hsplit, hp, hc]
          exact (firstMatch_eq_none_iff m u (page ++ ctx)).mp this r hr
        · rw [requestStarted, hp, hc]
          simp
  · intro h hmem hcont
    rw [requestStarted] at hmem hcont
    cases hp : firstMatch m u page with
    | some r =>
      rw [hp] at hcont
      simp at hcont
    | none =>
      rw [hp] at hmem hcont
      cases hc : firstMatch m u ctx with
      | some r =>
        rw [hc] at hcont
        simp at hcont
      | none =>
        rw [hc] at hmem
        simp at hmem

/-- Witness for C2 at a concrete input: a single matching route, so the
matched-handler outcome occurs and no auto-continue is performed. -/
theorem requestStarted_exactly_one_outcome_witness :
    RouteAction.continueRequest ∉
      requestStarted (fun u p => u == p) true
        [{ url := "https://a.example/", handler := 1 }] [] "https://a.example/" := by
  exact (requestStarted_exactly_one_outcome (fun u p => u == p)
    [{ url := "https://a.example/", handler := 1 }] [] "https://a.example/").2 1 (by decide)

/-! ## Binding registration and dispatch (page.ts)

`PageBinding.dispatch` parses the payload string `{name, seq, args}`; the
embedding starts from the already-parsed record. Host functions and argument
values are embedded over a small JSON-like value type sufficient for the
claims; a thrown JavaScript value is either an `Error` instance (message and
stack) or an arbitrary raw value, matching the `error instanceof Error`
branch of the source. -/

/-- A JSON-like value crossing the binding channel. -/
inductive JVal
  | num (n : Int)
  | str (s : String)
deriving Repr, DecidableEq

/-- A thrown JavaScript value: an `Error` object carrying message and stack,
or any other raw value. -/
inductive Thrown
  | errorObj (message : String) (stack : String)
  | value (v : JVal)

/-- A host-side exposed function: it returns a value or throws. -/
def HostFun : Type := List JVal → Except Thrown JVal

/-- `PageBinding`: name plus host function (the generated bootstrap source is
derived data not needed by the claims). -/
structure PageBinding where
  name : String
  playwrightFunction : HostFun

/-- The parsed binding-call payload `JSON.parse(payload)`, destructured by
`PageBinding.dispatch` as `{name, seq, args}`. -/
structure BindingPayload where
  name : String
  seq : Nat
  args : List JVal

/-- The delivery expression evaluated back into the originating execution
context: one of the three in-page functions `deliverResult`, `deliverError`,
`deliverErrorValue` applied to its arguments. -/
inductive DeliverExpr
  | deliverResult (name : String) (seq : Nat) (result : JVal)
  | deliverError (name : String) (seq : Nat) (message : String) (stack : String)
  | deliverErrorValue (name : String) (seq : Nat) (value : JVal)
deriving Repr, DecidableEq

/-- The JavaScript `TypeError` raised by `binding!.playwrightFunction(...)`
when no binding with the name of the payload is registered; the exact runtime
message is environment-defined and is not relied upon by any theorem. -/
def undefinedBindingError : Thrown :=
  Thrown.errorObj "binding.playwrightFunction is not a function" ""

/-- `PageBinding.dispatch`: resolve the binding by name in the page map,
falling back to the owning context map; invoke the host function on the
payload arguments; produce the delivery expression for the result, for a
thrown `Error` (message and stack), or for a raw thrown value. -/
def dispatch (pageBindings contextBindings : List (String × PageBinding))
    (payload : BindingPayload) : DeliverExpr :=
  let binding :=
    match mapGet pageBindings payload.name with
    | some b => some b
    | none => mapGet contextBindings payload.name
  match binding with
  | some b =>
    match b.playwrightFunction payload.args with
    | Except.ok result => DeliverExpr.deliverResult payload.name payload.seq result
    | Except.error (Thrown.errorObj message stack) =>
      DeliverExpr.deliverError payload.name payload.seq message stack
    | Except.error (Thrown.value v) =>
      DeliverExpr.deliverErrorValue payload.name payload.seq v
  | none =>
    match undefinedBindingError with
    | Thrown.errorObj message stack =>
      DeliverExpr.deliverError payload.name payload.seq message stack
    | Thrown.value v => DeliverExpr.deliverErrorValue payload.name payload.seq v

/-- How the remote promise keyed by a sequence number settles. -/
inductive Outcome
  | resolved (v : JVal)
  | rejectedError (message : String) (stack : String)
  | rejectedValue (v : JVal)
deriving Repr, DecidableEq

/-- Evaluating the delivery expression in the originating execution context:
`window[name].callbacks.get(seq)` is resolved or rejected and the entry is
deleted. `pending` is the set of sequence numbers with a pending promise in
the page-side `callbacks` map; when `seq` is absent the in-page code throws
and `context.evaluate(expression).catch(debugError)` suppresses the failure,
embedded as `none`. -/
def evalDeliver (pending : List Nat) :
    DeliverExpr → Option (List Nat × (Nat × Outcome))
  | DeliverExpr.deliverResult _ seq v =>
    if seq ∈ pending then some (pending.erase seq, (seq, Outcome.resolved v))
    else none
  | DeliverExpr.deliverError _ seq message stack =>
    if seq ∈ pending then some (pending.erase seq, (seq, Outcome.rejectedError message stack))
    else none
  | DeliverExpr.deliverErrorValue _ seq v =>
    if seq ∈ pending then some (pending.erase seq, (seq, Outcome.rejectedValue v))
    else none

/-- The page-side stub installed by `addPageBinding`: allocate
`seq = lastSeq + 1`, record a pending promise under `seq` in the callbacks
map, and send the serialized `{name, seq, args}` payload. Returns the new
`lastSeq`, the new pending set and the payload sent. -/
def callPageBinding (bindingName : String) (lastSeq : Nat) (pending : List Nat)
    (args : List JVal) : Nat × List Nat × BindingPayload :=
  let seq := lastSeq + 1
  (seq, pending ++ [seq], { name := bindingName, seq := seq, args := args })

/-- `Page.exposeFunction`: fail when the name is already in the own binding
map of the page, then when it is already in the binding map of the owning
context;
otherwise insert a new binding into the page map. Returned as
(thrown-or-unit, resulting page binding map); the map is untouched on
failure because the source throws before mutating. -/
def exposeFunction (pageBindings contextBindings : List (String × PageBinding))
    (name : String) (playwrightFunction : HostFun) :
    Except String Unit × List (String × PageBinding) :=
  if mapHas pageBindings name then
    (Except.error ("Function \"" ++ name ++ "\" has been already registered"), pageBindings)
  else if mapHas contextBindings name then
    (Except.error ("Function \"" ++ name ++ "\" has been already registered in the browser context"),
      pageBindings)
  else
    (Except.ok (), mapSet pageBindings name
      { name := name, playwrightFunction := playwrightFunction })

/-- `CRBrowserContext.exposeFunction` (identical in `WKBrowserContext`): fail
when any page of the context already has the name, then when the own map of
the context has it; otherwise insert into the context map. -/
def contextExposeFunction (pagesBindings : List (List (String × PageBinding)))
    (contextBindings : List (String × PageBinding))
    (name : String) (playwrightFunction : HostFun) :
    Except String Unit × List (String × PageBinding) :=
  if pagesBindings.any (fun pb => mapHas pb name) then
    (Except.error ("Function \"" ++ name ++ "\" has been already registered in one of the pages"),
      contextBindings)
  else if mapHas contextBindings name then
    (Except.error ("Function \"" ++ name ++ "\" has been already registered"), contextBindings)
  else
    (Except.ok (), mapSet contextBindings name
      { name := name, playwrightFunction := playwrightFunction })

/-- The host function `(a, b) => a + b` of the round-trip claim; only its
value on two numeric arguments is exercised. -/
def sumFn : HostFun := fun args =>
  match args with
  | [JVal.num a, JVal.num b] => Except.ok (JVal.num (a + b))
  | _ => Except.ok (JVal.str "NaN")

/-- A host function throwing `new Error("boom")`. -/
def throwingFn : HostFun := fun _ =>
  Except.error (Thrown.errorObj "boom" "Error: boom\n    at throwingFn")

/-- A host function throwing the raw (non-`Error`) value `"raw failure"`. -/
def rawThrowFn : HostFun := fun _ =>
  Except.error (Thrown.value (JVal.str "raw failure"))

/-- Claim C3: after registering the binding `"sum"` with host function
`(a, b) => a + b`, dispatching the payload (name `"sum"`, sequence 1, args
`[2, 3]`) produces the success delivery carrying value `5` correlated to
sequence 1, and evaluating it in the originating context resolves the remote
promise keyed by sequence 1 with `5` (removing its pending entry); a host
function throwing an `Error` instead delivers its message and stack, and a
host function throwing a raw value delivers the raw value, each rejecting the
promise keyed by the sequence number of the payload. -/
theorem binding_round_trip :
    ((exposeFunction [] [] "sum" sumFn).2
        = [("sum", { name := "sum", playwrightFunction := sumFn })]
      ∧ dispatch (exposeFunction [] [] "sum" sumFn).2 []
          { name := "sum", seq := 1, args := [JVal.num 2, JVal.num 3] }
        = DeliverExpr.deliverResult "sum" 1 (JVal.num 5)
      ∧ evalDeliver [1] (DeliverExpr.deliverResult "sum" 1 (JVal.num 5))
        = some ([], (1, Outcome.resolved (JVal.num 5))))
    ∧ (dispatch [("boom", { name := "boom", playwrightFunction := throwingFn })] []
          { name := "boom", seq := 7, args := [] }
        = DeliverExpr.deliverError "boom" 7 "boom" "Error: boom\n    at throwingFn"
      ∧ evalDeliver [7] (DeliverExpr.deliverError "boom" 7 "boom" "Error: boom\n    at throwingFn")
        = some ([], (7, Outcome.rejectedError "boom" "Error: boom\n    at throwingFn")))
    ∧ (dispatch [("raw", { name := "raw", playwrightFunction := rawThrowFn })] []
          { name := "raw", seq := 9, args := [] }
        = DeliverExpr.deliverErrorValue "raw" 9 (JVal.str "raw failure")
      ∧ evalDeliver [9] (DeliverExpr.deliverErrorValue "raw" 9 (JVal.str "raw failure"))
        = some ([], (9, Outcome.rejectedValue (JVal.str "raw failure")))) := by
  refine ⟨⟨?_, ?_, ?_⟩, ⟨?_, ?_⟩, ⟨?_, ?_⟩⟩ <;> rfl

/-- Claim C4: binding registration is atomic on conflict — a name already in
the own map of the page fails with the page-level "already registered"
message and a name already in the map of the owning context fails with the
context-level one,
in both cases returning the page map unchanged (so the original binding stays
registered, and dispatch on that unchanged state still resolves it); a name in
neither map is inserted. -/
theorem exposeFunction_atomic (pageBindings contextBindings : List (String × PageBinding))
    (name : String) (f : HostFun) :
    (mapHas pageBindings name = true →
      exposeFunction pageBindings contextBindings name f
        = (Except.error ("Function \"" ++ name ++ "\" has been already registered"),
            pageBindings))
  ∧ (mapHas pageBindings name = false → mapHas contextBindings name = true →
      exposeFunction pageBindings contextBindings name f
        = (Except.error ("Function \"" ++ name ++ "\" has been already registered in the browser context"),
            pageBindings))
  ∧ ((mapHas pageBindings name = true ∨ mapHas contextBindings name = true) →
      mapGet (exposeFunction pageBindings contextBindings name f).2 name
        = mapGet pageBindings name)
  ∧ (mapHas pageBindings name = false → mapHas contextBindings name = false →
      exposeFunction pageBindings contextBindings name f
        = (Except.ok (), mapSet pageBindings name
            { name := name, playwrightFunction := f })) := by
  refine ⟨?_, ?_, ?_, ?_⟩
  · intro h
    simp [exposeFunction, h]
  · intro h₁ h₂
    simp [exposeFunction, h₁, h₂]
  · intro h
    rcases h with h | h
    · simp [exposeFunction, h]
    · by_cases hp : mapHas pageBindings name
      · simp [exposeFunction, hp]
      · simp [exposeFunction, hp, h]
  · intro h₁ h₂
    simp [exposeFunction, h₁, h₂]

/-- Witness for C4: registering `"sum"` twice on the same page fails with the
duplicate-registration message and leaves the original binding in the map;
registering a fresh `"neg"` inserts it. -/
theorem exposeFunction_atomic_witness :
    (exposeFunction (exposeFunction [] [] "sum" sumFn).2 [] "sum" throwingFn
        = (Except.error "Function \"sum\" has been already registered",
            (exposeFunction [] [] "sum" sumFn).2)
      ∧ mapGet (exposeFunction (exposeFunction [] [] "sum" sumFn).2 [] "sum" throwingFn).2 "sum"
        = mapGet (exposeFunction [] [] "sum" sumFn).2 "sum")
    ∧ exposeFunction (exposeFunction [] [] "sum" sumFn).2 [] "neg" throwingFn
        = (Except.ok (), mapSet (exposeFunction [] [] "sum" sumFn).2 "neg"
            { name := "neg", playwrightFunction := throwingFn }) := by
  have h₁ := (exposeFunction_atomic (exposeFunction [] [] "sum" sumFn).2 [] "sum" throwingFn).1
    (by rfl)
  have h₂ := (exposeFunction_atomic (exposeFunction [] [] "sum" sumFn).2 [] "sum" throwingFn).2.2.1
    (Or.inl (by rfl))
  have h₃ := (exposeFunction_atomic (exposeFunction [] [] "sum" sumFn).2 [] "neg" throwingFn).2.2.2
    (by rfl) (by rfl)
  exact ⟨⟨h₁, h₂⟩, h₃⟩

/-! ## Target and context registry (crBrowser.ts, wkBrowser.ts) -/

/-- The target kinds occurring in `CRBrowser`. -/
inductive TargetType
  | page
  | backgroundPage
  | serviceWorker
  | browser
  | other
deriving Repr, DecidableEq

/-- `CRTarget.isPageType` lies outside the provided sources; the assertion in
`CRBrowser._onAttachedToTarget` (the non-page kinds are exactly
`service_worker`, `browser` and `other`) determines it on the kinds occurring
here: `page` and `background_page` are the page-like kinds. -/
def isPageType : TargetType → Bool
  | TargetType.page => true
  | TargetType.backgroundPage => true
  | _ => false

/-- `String.startsWith`, computed on the underlying character list. -/
def strStartsWith (s pre : String) : Bool :=
  pre.data.isPrefixOf s.data

/-- `CRBrowser._onWindowOpen`: push the target id of the opener onto
`_popupOpeners`, except that `window.open` with the `noopener` feature and an
`about:blank` url forces a browser-initiated window and is skipped. -/
def crOnWindowOpen (popupOpeners : List String) (openerId : String)
    (windowFeatures : List String) (url : String) : List String :=
  if "noopener" ∈ windowFeatures ∧ strStartsWith url "about:blank" = true then
    popupOpeners
  else popupOpeners ++ [openerId]

/-- `WKBrowser._onWindowOpen`: unconditionally push the opener page-proxy id
onto `_popupOpeners`. -/
def wkOnWindowOpen (popupOpeners : List String) (pageProxyId : String) : List String :=
  popupOpeners ++ [pageProxyId]

/-- The opener-consumption step of `CRBrowser._createTarget`: when the new
target is page-like and reports a (truthy) opener id found in
`_popupOpeners`, splice out that one entry and set `hasInitialAboutBlank`.
Returns the flag and the updated queue. -/
def crConsumePopupOpener (popupOpeners : List String) (type : TargetType)
    (openerId : Option String) : Bool × List String :=
  match openerId with
  | some oid =>
    if isPageType type = true ∧ oid ≠ "" then
      if oid ∈ popupOpeners then (true, removeFirst popupOpeners oid)
      else (false, popupOpeners)
    else (false, popupOpeners)
  | none => (false, popupOpeners)

/-- The opener-consumption step of `WKBrowser._onPageProxyCreated`: same
remove-one-match consumption, with no target-kind guard. -/
def wkConsumePopupOpener (popupOpeners : List String) (openerId : Option String) :
    Bool × List String :=
  match openerId with
  | some oid =>
    if oid ≠ "" then
      if oid ∈ popupOpeners then (true, removeFirst popupOpeners oid)
      else (false, popupOpeners)
    else (false, popupOpeners)
  | none => (false, popupOpeners)

/-- The context a new target is assigned to. -/
inductive ContextAssign
  | defaultContext
  | registered (id : String)
deriving Repr, DecidableEq

/-- Context resolution in `CRBrowser._createTarget`: a truthy reported context
id that is a key of `_contexts` selects that context, anything else falls back
to the default context. `contexts` is the key set of `_contexts`. -/
def crResolveContext (contexts : List String) (browserContextId : Option String) :
    ContextAssign :=
  match browserContextId with
  | some id =>
    if id ≠ "" ∧ id ∈ contexts then ContextAssign.registered id
    else ContextAssign.defaultContext
  | none => ContextAssign.defaultContext

/-- Context resolution in `WKBrowser._onPageProxyCreated`: a truthy reported
context id that is a key of `_contexts` selects that context; otherwise, when
`_attachToDefaultContext` is unset the event is ignored (`none`), and when it
is set the default context is used. -/
def wkResolveContext (contexts : List String) (browserContextId : Option String)
    (attachToDefaultContext : Bool) : Option ContextAssign :=
  let context : Option ContextAssign :=
    match browserContextId with
    | some id =>
      if id ≠ "" ∧ id ∈ contexts then some (ContextAssign.registered id)
      else none
    | none => none
  match context with
  | some c => some c
  | none =>
    if attachToDefaultContext then some ContextAssign.defaultContext else none

/-- The registration step closing `CRBrowser._createTarget`: assert the id is
not yet live, then insert. Returned as (thrown-or-unit, resulting registry);
the registry is untouched on assertion failure because `assert` throws before
`set`. -/
def registerTarget {τ : Type} (targets : List (String × τ)) (targetId : String)
    (target : τ) : Except String Unit × List (String × τ) :=
  if mapHas targets targetId then
    (Except.error "Target should not exist before targetCreated", targets)
  else
    (Except.ok (), mapSet targets targetId target)

/-- The observable actions of the target-destroyed handlers. -/
inductive DestroyAction
  | removeFromRegistry (id : String)
  | didClose (id : String)
  | dispose (id : String)
deriving Repr, DecidableEq

/-- `CRBrowser._targetDestroyed`: unknown ids are ignored; a known id is
deleted from `_targets` and then `_didClose()` is applied to it. Returns the
performed actions in order, with the updated registry. -/
def crTargetDestroyed {τ : Type} (targets : List (String × τ)) (targetId : String) :
    List DestroyAction × List (String × τ) :=
  match mapGet targets targetId with
  | none => ([], targets)
  | some _ =>
    ([DestroyAction.removeFromRegistry targetId, DestroyAction.didClose targetId],
      mapDelete targets targetId)

/-- `WKBrowser._onPageProxyDestroyed`: unknown ids are ignored; a known id has
`didClose()` and `dispose()` applied and is then deleted from `_wkPages`. -/
def wkPageProxyDestroyed {τ : Type} (wkPages : List (String × τ)) (pageProxyId : String) :
    List DestroyAction × List (String × τ) :=
  match mapGet wkPages pageProxyId with
  | none => ([], wkPages)
  | some _ =>
    ([DestroyAction.didClose pageProxyId, DestroyAction.dispose pageProxyId,
      DestroyAction.removeFromRegistry pageProxyId],
      mapDelete wkPages pageProxyId)

/-- Helper for the ordering predicate: scan left to right carrying the ids
already closed. -/
def closedBeforeRemovedAux (closed : List String) : List DestroyAction → Bool
  | [] => true
  | DestroyAction.didClose id :: rest => closedBeforeRemovedAux (id :: closed) rest
  | DestroyAction.dispose _ :: rest => closedBeforeRemovedAux closed rest
  | DestroyAction.removeFromRegistry id :: rest =>
    closed.contains id && closedBeforeRemovedAux closed rest

/-- The ordering property of claim C6: every registry removal is preceded by
the destruction side-effect (`didClose`) for the same id. -/
def closedBeforeRemoved (trace : List DestroyAction) : Bool :=
  closedBeforeRemovedAux [] trace

/-- Result of the deferred `pageOrError()` of a target. Modelled from the spec:
`CRTarget.pageOrError` / `WKPage.pageOrError` are outside the provided
sources; per the spec the deferred result settles exactly once with either the
constructed page object or a construction error, and continuations attached
with `.then` observe the settled value (the deferred fulfills, it does not
reject — `newPage` in both browsers inspects the fulfilled value with
`instanceof`). -/
inductive PageOrError
  | page (isClosed : Bool)
  | failure (message : String)
deriving Repr, DecidableEq

/-- The lifecycle notifications emitted by the attach handlers. -/
inductive LifecycleEmit
  | firstPage
  | contextPage
  | popup
  | backgroundPage
deriving Repr, DecidableEq

/-- The popup branch shared by both attach handlers: emitted only when the
target has an opener whose own `pageOrError()` settled to a page that is not
closed. -/
def popupEmission (opener : Option PageOrError) : List LifecycleEmit :=
  match opener with
  | none => []
  | some (PageOrError.page isClosed) =>
    if isClosed then [] else [LifecycleEmit.popup]
  | some (PageOrError.failure _) => []

set_option linter.unusedVariables false in
/-- The continuation `CRBrowser._onAttachedToTarget` schedules on
`target.pageOrError()`: for a `page` target signal first-page readiness, emit
the context-scoped new-page notification and then the opener popup branch;
for a `background_page` target emit the background-page notification.
`result` is the value `pageOrError()` settled with; the source continuation
never inspects it. -/
def crAttachedEmissions (type : TargetType) (result : PageOrError)
    (opener : Option PageOrError) : List LifecycleEmit :=
  match type with
  | TargetType.page =>
    [LifecycleEmit.firstPage, LifecycleEmit.contextPage] ++ popupEmission opener
  | TargetType.backgroundPage => [LifecycleEmit.backgroundPage]
  | _ => []

set_option linter.unusedVariables false in
/-- The continuation `WKBrowser._onPageProxyCreated` schedules on
`wkPage.pageOrError()`; every WebKit page proxy is a page. `result` is the
value `pageOrError()` settled with; the source continuation never inspects
it. -/
def wkCreatedEmissions (result : PageOrError) (opener : Option PageOrError) :
    List LifecycleEmit :=
  [LifecycleEmit.firstPage, LifecycleEmit.contextPage] ++ popupEmission opener

/-! ## Registry lemmas -/

theorem mapGet_mapSet_self {β : Type} (m : List (String × β)) (k : String) (v : β) :
    mapGet (mapSet m k v) k = some v := by
  induction m with
  | nil => simp [mapSet, mapGet]
  | cons kv rest ih =>
    obtain ⟨k₁, v₁⟩ := kv
    by_cases h : k₁ = k
    · subst h
      simp [mapSet, mapGet]
    · simp [mapSet, mapGet, h, ih]

theorem mapGet_mapSet_ne {β : Type} (m : List (String × β)) (k k' : String) (v : β)
    (h : k' ≠ k) : mapGet (mapSet m k v) k' = mapGet m k' := by
  have h' : k ≠ k' := Ne.symm h
  induction m with
  | nil => simp [mapSet, mapGet, h']
  | cons kv rest ih =>
    obtain ⟨k₁, v₁⟩ := kv
    by_cases hk : k₁ = k
    · subst hk
      simp [mapSet, mapGet, h']
    · simp only [mapSet, hk, if_false, mapGet]
      by_cases hk' : k₁ = k'
      · simp [hk']
      · simp [hk', ih]

theorem count_removeFirst (q : List String) (a : String) (h : a ∈ q) :
    (removeFirst q a).count a = q.count a - 1 := by
  induction q with
  | nil => cases h
  | cons x rest ih =>
    by_cases hx : x = a
    · subst hx
      simp [removeFirst, List.count_cons_self]
    · have hmem : a ∈ rest := by
        rcases List.mem_cons.mp h with h₁ | h₁
        · exact absurd h₁.symm hx
        · exact h₁
      have hne : a ≠ x := fun hc => hx hc.symm
      simp [removeFirst, hx, List.count_cons_of_ne hne, ih hmem]

theorem not_mem_removeFirst_of_count_one (q : List String) (a : String)
    (h : q.count a = 1) : a ∉ removeFirst q a := by
  have hmem : a ∈ q := by
    by_contra hm
    rw [List.count_eq_zero.mpr hm] at h
    exact absurd h (by decide)
  have : (removeFirst q a).count a = 0 := by
    rw [count_removeFirst q a hmem, h]
  exact List.count_eq_zero.mp this

/-! ## Claims C5 - C9 -/

/-- Claim C5 counterexample: a page-kind target whose deferred page-or-error
result completes with an error (for example because the target was destroyed
before construction completed) still gets the first-target-ready signal and
the context-scoped new-page notification — the scheduled continuation never
inspects the settled value. -/
theorem crAttachedEmissions_failure_counterexample :
    crAttachedEmissions TargetType.page (PageOrError.failure "Target closed") none
      = [LifecycleEmit.firstPage, LifecycleEmit.contextPage]
    ∧ LifecycleEmit.contextPage ∈
        crAttachedEmissions TargetType.page (PageOrError.failure "Target closed") none := by
  exact ⟨rfl, by decide⟩

/-- Claim C5 (amended): for a page-kind target, the first-target-ready signal
and the context-scoped new-page notification are emitted once the deferred
page-or-error result completes, regardless of whether it completed with a page
or with an error (the emissions do not depend on the settled value at all);
the opener popup notification is additionally emitted exactly when the opener
exists and the own page-or-error result of the opener is a non-closed page.
The
WebKit handler behaves identically. -/
theorem attachedEmissions_after_settle (result : PageOrError)
    (opener : Option PageOrError) :
    crAttachedEmissions TargetType.page result opener
      = [LifecycleEmit.firstPage, LifecycleEmit.contextPage] ++ popupEmission opener
    ∧ wkCreatedEmissions result opener
      = [LifecycleEmit.firstPage, LifecycleEmit.contextPage] ++ popupEmission opener
    ∧ (LifecycleEmit.popup ∈ crAttachedEmissions TargetType.page result opener
        ↔ opener = some (PageOrError.page false)) := by
  refine ⟨rfl, rfl, ?_⟩
  match opener with
  | none => simp [crAttachedEmissions, popupEmission]
  | some (PageOrError.page false) => simp [crAttachedEmissions, popupEmission]
  | some (PageOrError.page true) => simp [crAttachedEmissions, popupEmission]
  | some (PageOrError.failure msg) => simp [crAttachedEmissions, popupEmission]

/-- Claim C6 counterexample: in `CRBrowser._targetDestroyed` a known target id
is removed from the registry *before* `_didClose()` is applied to it, so
removal does precede the destruction side-effects. -/
theorem crTargetDestroyed_removes_before_close :
    (crTargetDestroyed [("t1", (0 : Nat))] "t1").1
      = [DestroyAction.removeFromRegistry "t1", DestroyAction.didClose "t1"]
    ∧ closedBeforeRemoved ((crTargetDestroyed [("t1", (0 : Nat))] "t1").1) = false := by
  exact ⟨rfl, rfl⟩

/-- Claim C6 (amended): both destroy handlers silently ignore unknown ids,
leaving the registry unchanged; for a known id the WebKit handler applies
`didClose` and `dispose` and only then removes the registry entry (removal
after side-effects), while the Chromium handler removes the registry entry
first and applies `_didClose` afterwards. -/
theorem targetDestroyed_behavior {τ : Type} (targets : List (String × τ)) (id : String) :
    (mapGet targets id = none →
      crTargetDestroyed targets id = ([], targets)
      ∧ wkPageProxyDestroyed targets id = ([], targets))
  ∧ (∀ t, mapGet targets id = some t →
      crTargetDestroyed targets id
        = ([DestroyAction.removeFromRegistry id, DestroyAction.didClose id],
            mapDelete targets id)
      ∧ wkPageProxyDestroyed targets id
        = ([DestroyAction.didClose id, DestroyAction.dispose id,
            DestroyAction.removeFromRegistry id], mapDelete targets id)
      ∧ closedBeforeRemoved (wkPageProxyDestroyed targets id).1 = true
      ∧ closedBeforeRemoved (crTargetDestroyed targets id).1 = false) := by
  constructor
  · intro h
    exact ⟨by simp [crTargetDestroyed, h], by simp [wkPageProxyDestroyed, h]⟩
  · intro t h
    refine ⟨by simp [crTargetDestroyed, h], by simp [wkPageProxyDestroyed, h], ?_, ?_⟩
    · simp [wkPageProxyDestroyed, h, closedBeforeRemoved, closedBeforeRemovedAux]
    · simp [crTargetDestroyed, h, closedBeforeRemoved, closedBeforeRemovedAux]

/-- Witness for C6 (amended) at concrete inputs: an unknown id leaves an empty
registry untouched with no actions; the known id `"t1"` produces the stated
action orders on both paths. -/
theorem targetDestroyed_behavior_witness :
    (crTargetDestroyed ([] : List (String × Nat)) "t9" = ([], [])
      ∧ wkPageProxyDestroyed ([] : List (String × Nat)) "t9" = ([], []))
    ∧ (crTargetDestroyed [("t1", (1 : Nat))] "t1"
        = ([DestroyAction.removeFromRegistry "t1", DestroyAction.didClose "t1"],
            mapDelete [("t1", (1 : Nat))] "t1")
      ∧ closedBeforeRemoved (wkPageProxyDestroyed [("t1", (1 : Nat))] "t1").1 = true
      ∧ closedBeforeRemoved (crTargetDestroyed [("t1", (1 : Nat))] "t1").1 = false) := by
  have h₁ := (targetDestroyed_behavior ([] : List (String × Nat)) "t9").1 (by rfl)
  have h₂ := (targetDestroyed_behavior [("t1", (1 : Nat))] "t1").2 1 (by rfl)
  exact ⟨h₁, h₂.1, h₂.2.2.1, h₂.2.2.2⟩

/-- Claim C7 counterexample: a Chromium window-opened signal whose window
features include `noopener` and whose url starts with `about:blank` does not
push the opener id onto the popup-opener queue. -/
theorem crOnWindowOpen_noopener_skips :
    crOnWindowOpen [] "T1" ["noopener"] "about:blank" = []
    ∧ "T1" ∉ crOnWindowOpen [] "T1" ["noopener"] "about:blank" := by
  exact ⟨rfl, by decide⟩

/-- Claim C7 (amended): a WebKit window-opened signal always pushes the opener
id; a Chromium window-opened signal pushes it unless the window features
include `noopener` and the url starts with `about:blank`, in which case the
queue is left unchanged. Consumption is remove-one-match: a page-like
target-created event with a truthy opener id present in the queue removes
exactly one matching entry and reports the implicit-initial-about-blank flag
true; with the opener id absent it reports false and leaves the queue
unchanged; and an entry is never matched twice — when the queue holds exactly
one copy of the opener id, a second consumption reports false. -/
theorem popupOpener_consume_once (q : List String) (oid : String)
    (features : List String) (url : String) :
    (wkOnWindowOpen q oid = q ++ [oid])
  ∧ (¬("noopener" ∈ features ∧ strStartsWith url "about:blank" = true) →
      crOnWindowOpen q oid features url = q ++ [oid])
  ∧ ("noopener" ∈ features → strStartsWith url "about:blank" = true →
      crOnWindowOpen q oid features url = q)
  ∧ (oid ≠ "" → oid ∈ q →
      crConsumePopupOpener q TargetType.page (some oid) = (true, removeFirst q oid)
      ∧ wkConsumePopupOpener q (some oid) = (true, removeFirst q oid))
  ∧ (oid ∉ q →
      crConsumePopupOpener q TargetType.page (some oid) = (false, q)
      ∧ wkConsumePopupOpener q (some oid) = (false, q))
  ∧ (oid ≠ "" → q.count oid = 1 →
      (crConsumePopupOpener (crConsumePopupOpener q TargetType.page (some oid)).2
          TargetType.page (some oid)).1 = false
      ∧ (wkConsumePopupOpener (wkConsumePopupOpener q (some oid)).2 (some oid)).1
          = false) := by
  refine ⟨rfl, ?_, ?_, ?_, ?_, ?_⟩
  · intro h
    rw [crOnWindowOpen, if_neg h]
  · intro h₁ h₂
    rw [crOnWindowOpen, if_pos ⟨h₁, h₂⟩]
  · intro hne hmem
    constructor
    · simp [crConsumePopupOpener, isPageType, hne, hmem]
    · simp [wkConsumePopupOpener, hne, hmem]
  · intro hmem
    constructor
    · by_cases hne : oid = ""
      · subst hne
        simp [crConsumePopupOpener]
      · simp [crConsumePopupOpener, isPageType, hne, hmem]
    · by_cases hne : oid = ""
      · subst hne
        simp [wkConsumePopupOpener]
      · simp [wkConsumePopupOpener, hne, hmem]
  · intro hne hcount
    have hmem : oid ∈ q := by
      by_contra hm
      rw [List.count_eq_zero.mpr hm] at hcount
      exact absurd hcount (by decide)
    have hnot : oid ∉ removeFirst q oid :=
      not_mem_removeFirst_of_count_one q oid hcount
    constructor
    · have hfst : crConsumePopupOpener q TargetType.page (some oid)
          = (true, removeFirst q oid) := by
        simp [crConsumePopupOpener, isPageType, hne, hmem]
      rw [hfst]
      simp [crConsumePopupOpener, isPageType, hne, hnot]
    · have hfst : wkConsumePopupOpener q (some oid) = (true, removeFirst q oid) := by
        simp [wkConsumePopupOpener, hne, hmem]
      rw [hfst]
      simp [wkConsumePopupOpener, hne, hnot]

/-- Witness for C7 (amended) at concrete inputs: one window-open signal for
`"T1"` followed by two matching target-created events — the first consumes the
entry and gets the flag, the second gets flag false. -/
theorem popupOpener_consume_once_witness :
    wkOnWindowOpen [] "T1" = ["T1"]
    ∧ crOnWindowOpen [] "T1" [] "https://example.com/" = ["T1"]
    ∧ crConsumePopupOpener ["T1"] TargetType.page (some "T1") = (true, [])
    ∧ (crConsumePopupOpener (crConsumePopupOpener ["T1"] TargetType.page (some "T1")).2
        TargetType.page (some "T1")).1 = false := by
  have h := popupOpener_consume_once ["T1"] "T1" [] "https://example.com/"
  have hpush := (popupOpener_consume_once ([] : List String) "T1" [] "https://example.com/").2.1
    (by decide)
  have hfst := h.2.2.2.1 (by decide) (by decide)
  have hsnd := (h.2.2.2.2.2 (by decide) (by decide)).1
  exact ⟨rfl, hpush, by simpa [removeFirst] using hfst.1, hsnd⟩

/-- Claim C8 counterexample: a WebKit page-proxy-created event reporting a
context id absent from the contexts registry, on a browser not attached to the
default context, is ignored — the target is not assigned to the default
context. -/
theorem wkUnknownContext_not_defaulted :
    wkResolveContext [] (some "ctx-unknown") false = none
    ∧ wkResolveContext [] (some "ctx-unknown") false ≠ some ContextAssign.defaultContext := by
  exact ⟨rfl, by decide⟩

/-- Claim C8 (amended): a reported context id that is a registered key is
assigned to that registered context on both paths; an absent or unknown
reported context id falls back to the default context in Chromium always, and
in WebKit only when attach-to-default-context is enabled — otherwise the
WebKit event is ignored and no context is assigned. -/
theorem resolveContext_behavior (contexts : List String) (id : String) :
    (crResolveContext contexts none = ContextAssign.defaultContext)
  ∧ (id ≠ "" → id ∈ contexts →
      crResolveContext contexts (some id) = ContextAssign.registered id
      ∧ ∀ b, wkResolveContext contexts (some id) b = some (ContextAssign.registered id))
  ∧ (id ∉ contexts →
      crResolveContext contexts (some id) = ContextAssign.defaultContext
      ∧ wkResolveContext contexts (some id) true = some ContextAssign.defaultContext
      ∧ wkResolveContext contexts (some id) false = none)
  ∧ (wkResolveContext contexts none true = some ContextAssign.defaultContext
      ∧ wkResolveContext contexts none false = none) := by
  refine ⟨rfl, ?_, ?_, ⟨rfl, rfl⟩⟩
  · intro hne hc
    exact ⟨by simp [crResolveContext, hne, hc],
      fun b => by simp [wkResolveContext, hne, hc]⟩
  · intro hc
    exact ⟨by simp [crResolveContext, hc], by simp [wkResolveContext, hc],
      by simp [wkResolveContext, hc]⟩

/-- Witness for C8 (amended) at concrete inputs: the registered key `"ctx1"`
is assigned to its context; the unknown key `"ctx2"` falls back to the default
context in Chromium and is ignored in WebKit without the default-attach flag. -/
theorem resolveContext_behavior_witness :
    crResolveContext ["ctx1"] (some "ctx1") = ContextAssign.registered "ctx1"
    ∧ wkResolveContext ["ctx1"] (some "ctx1") false = some (ContextAssign.registered "ctx1")
    ∧ crResolveContext ["ctx1"] (some "ctx2") = ContextAssign.defaultContext
    ∧ wkResolveContext ["ctx1"] (some "ctx2") false = none := by
  have h₁ := (resolveContext_behavior ["ctx1"] "ctx1").2.1 (by decide) (by decide)
  have h₂ := (resolveContext_behavior ["ctx1"] "ctx2").2.2.1 (by decide)
  exact ⟨h₁.1, h₁.2 false, h₂.1, h₂.2.2⟩

/-- Claim C9: registering a created target under an id already live in the
registry fails the fatal assertion with message "Target should not exist
before targetCreated" and does not overwrite the existing entry (the registry
is returned untouched); under the precondition that the id is not yet
registered, the assertion branch is unreachable and the target is inserted
keyed by its id, preserving every other entry. -/
theorem registerTarget_unique {τ : Type} (targets : List (String × τ)) (id : String)
    (t : τ) :
    (mapHas targets id = true →
      registerTarget targets id t
        = (Except.error "Target should not exist before targetCreated", targets))
  ∧ (mapHas targets id = false →
      registerTarget targets id t = (Except.ok (), mapSet targets id t)
      ∧ mapGet (registerTarget targets id t).2 id = some t
      ∧ ∀ k, k ≠ id → mapGet (registerTarget targets id t).2 k = mapGet targets k) := by
  constructor
  · intro h
    simp [registerTarget, h]
  · intro h
    refine ⟨by simp [registerTarget, h], ?_, ?_⟩
    · simp [registerTarget, h, mapGet_mapSet_self]
    · intro k hk
      simp [registerTarget, h, mapGet_mapSet_ne targets id k t hk]

/-- Witness for C9 at concrete inputs: re-registering the live id `"t1"`
fails the assertion and leaves the registry unchanged; registering the fresh
id `"t2"` inserts it. -/
theorem registerTarget_unique_witness :
    registerTarget [("t1", (0 : Nat))] "t1" 1
      = (Except.error "Target should not exist before targetCreated", [("t1", (0 : Nat))])
    ∧ registerTarget ([] : List (String × Nat)) "t2" 5
      = (Except.ok (), mapSet ([] : List (String × Nat)) "t2" 5)
    ∧ mapGet (registerTarget ([] : List (String × Nat)) "t2" 5).2 "t2" = some 5 := by
  have h₁ := (registerTarget_unique [("t1", (0 : Nat))] "t1" 1).1 (by rfl)
  have h₂ := (registerTarget_unique ([] : List (String × Nat)) "t2" 5).2 (by rfl)
  exact ⟨h₁, h₂.1, h₂.2.1⟩

/-! ## Browser-context option validation (browserContext.ts)

JavaScript numbers appearing in geolocation are embedded as rationals. The
`helper.isNumber` checks are enforced by the types of the embedding. The error
`throw`s carry the offending value as structured data; the source formats it
into the message string "Invalid longitude ...", "Invalid latitude ...",
"Invalid accuracy ...". -/

/-- `types.Size`. -/
structure Size where
  width : Int
  height : Int
deriving Repr, DecidableEq

/-- The `viewport` option distinguishes a missing field, an explicit `null`,
and a provided size object. -/
inductive Viewport
  | undef
  | null
  | size (s : Size)
deriving Repr, DecidableEq

/-- `types.Geolocation`: `accuracy` is optional. -/
structure Geolocation where
  longitude : ℚ
  latitude : ℚ
  accuracy : Option ℚ
deriving Repr, DecidableEq

/-- The precondition failures thrown by `verifyGeolocation`. -/
inductive ValidationError
  | invalidLongitude (value : ℚ)
  | invalidLatitude (value : ℚ)
  | invalidAccuracy (value : ℚ)
deriving Repr, DecidableEq

/-- `BrowserContextOptions` (browserContext.ts). -/
structure BrowserContextOptions where
  viewport : Viewport
  ignoreHTTPSErrors : Option Bool
  javaScriptEnabled : Option Bool
  bypassCSP : Option Bool
  userAgent : Option String
  locale : Option String
  timezoneId : Option String
  geolocation : Option Geolocation
  permissions : Option (List String)
  extraHTTPHeaders : Option (List (String × String))
  offline : Option Bool
  httpCredentials : Option (String × String)
  deviceScaleFactor : Option ℚ
  isMobile : Option Bool
  hasTouch : Option Bool
deriving Repr, DecidableEq

/-- `network.verifyHeaders` is outside the provided sources; it copies the
header entries, asserting every value is a string — an assertion the
types of the embedding make vacuous — so it is embedded as an order-preserving
copy. -/
def verifyHeaders (headers : List (String × String)) : List (String × String) :=
  headers.map (fun kv => (kv.1, kv.2))

/-- `verifyGeolocation`: default `accuracy` to 0 (`accuracy || 0`), then check
longitude in [-180, 180], latitude in [-90, 90] and accuracy >= 0, throwing on
the first violated precondition, and return the copy with the defaulted
accuracy. -/
def verifyGeolocation (geolocation : Geolocation) : Except ValidationError Geolocation :=
  if geolocation.longitude < -180 ∨ geolocation.longitude > 180 then
    Except.error (ValidationError.invalidLongitude geolocation.longitude)
  else if geolocation.latitude < -90 ∨ geolocation.latitude > 90 then
    Except.error (ValidationError.invalidLatitude geolocation.latitude)
  else if geolocation.accuracy.getD 0 < 0 then
    Except.error (ValidationError.invalidAccuracy (geolocation.accuracy.getD 0))
  else
    Except.ok { geolocation with accuracy := some (geolocation.accuracy.getD 0) }

/-- The viewport branch of `validateBrowserContextOptions`: a missing
viewport is replaced by the default 1280x720, an explicit `null` is
preserved, a provided object is shallow-copied. -/
def defaultViewport : Viewport → Viewport
  | Viewport.undef => Viewport.size { width := 1280, height := 720 }
  | Viewport.null => Viewport.null
  | Viewport.size s => Viewport.size { width := s.width, height := s.height }

/-- `validateBrowserContextOptions`: shallow-copy the options; apply the
viewport defaulting; validate geolocation when present (a thrown validation
error propagates); verify the extra HTTP headers when present; leave every
other field as-is. -/
def validateBrowserContextOptions (options : BrowserContextOptions) :
    Except ValidationError BrowserContextOptions :=
  match options.geolocation with
  | some g =>
    match verifyGeolocation g with
    | Except.error e => Except.error e
    | Except.ok g' =>
      Except.ok { options with
        viewport := defaultViewport options.viewport
        geolocation := some g'
        extraHTTPHeaders := options.extraHTTPHeaders.map verifyHeaders }
  | none =>
    Except.ok { options with
      viewport := defaultViewport options.viewport
      geolocation := none
      extraHTTPHeaders := options.extraHTTPHeaders.map verifyHeaders }

theorem verifyHeaders_eq (headers : List (String × String)) :
    verifyHeaders headers = headers := by
  unfold verifyHeaders
  simp

theorem mapVerifyHeaders_eq (headers : Option (List (String × String))) :
    headers.map verifyHeaders = headers := by
  cases headers <;> simp [verifyHeaders_eq]

theorem verifyGeolocation_ok_iff (g g' : Geolocation) :
    verifyGeolocation g = Except.ok g' ↔
      (-180 ≤ g.longitude ∧ g.longitude ≤ 180 ∧ -90 ≤ g.latitude ∧ g.latitude ≤ 90
        ∧ 0 ≤ g.accuracy.getD 0
        ∧ g' = { g with accuracy := some (g.accuracy.getD 0) }) := by
  constructor
  · intro h
    unfold verifyGeolocation at h
    by_cases h₁ : g.longitude < -180 ∨ g.longitude > 180
    · rw [if_pos h₁] at h
      exact absurd h (by simp)
    · rw [if_neg h₁] at h
      by_cases h₂ : g.latitude < -90 ∨ g.latitude > 90
      · rw [if_pos h₂] at h
        exact absurd h (by simp)
      · rw [if_neg h₂] at h
        by_cases h₃ : g.accuracy.getD 0 < 0
        · rw [if_pos h₃] at h
          exact absurd h (by simp)
        · rw [if_neg h₃] at h
          push_neg at h₁ h₂
          injection h with h
          exact ⟨h₁.1, h₁.2, h₂.1, h₂.2, not_lt.mp h₃, h.symm⟩
  · rintro ⟨h₁, h₂, h₃, h₄, h₅, h₆⟩
    unfold verifyGeolocation
    rw [if_neg (not_or.mpr ⟨not_lt.mpr h₁, not_lt.mpr h₂⟩),
      if_neg (not_or.mpr ⟨not_lt.mpr h₃, not_lt.mpr h₄⟩),
      if_neg (not_lt.mpr h₅), h₆]

theorem validate_geolocation_none (options : BrowserContextOptions)
    (hg : options.geolocation = none) :
    validateBrowserContextOptions options = Except.ok { options with
      viewport := defaultViewport options.viewport
      geolocation := none
      extraHTTPHeaders := options.extraHTTPHeaders.map verifyHeaders } := by
  unfold validateBrowserContextOptions
  rw [hg]

theorem validate_geolocation_ok (options : BrowserContextOptions) (g g' : Geolocation)
    (hg : options.geolocation = some g) (hv : verifyGeolocation g = Except.ok g') :
    validateBrowserContextOptions options = Except.ok { options with
      viewport := defaultViewport options.viewport
      geolocation := some g'
      extraHTTPHeaders := options.extraHTTPHeaders.map verifyHeaders } := by
  unfold validateBrowserContextOptions
  simp only [hg]
  rw [hv]

theorem validate_geolocation_error (options : BrowserContextOptions) (g : Geolocation)
    (e : ValidationError) (hg : options.geolocation = some g)
    (hv : verifyGeolocation g = Except.error e) :
    validateBrowserContextOptions options = Except.error e := by
  unfold validateBrowserContextOptions
  simp only [hg]
  rw [hv]

/-- Claim C10: `validateBrowserContextOptions` returns a copy of its input in
which a missing viewport is replaced by the default 1280x720, an explicit
`null` viewport is preserved, and a provided viewport is copied with equal
fields; geolocation, when present, is validated — success requires longitude
in [-180, 180], latitude in [-90, 90] and the (default-0) accuracy >= 0, any
violation fails with the corresponding error — and its accuracy defaults to 0;
every other option field passes through unchanged. -/
theorem validateBrowserContextOptions_spec (options : BrowserContextOptions) :
    (∀ result, validateBrowserContextOptions options = Except.ok result →
      (options.viewport = Viewport.undef →
        result.viewport = Viewport.size { width := 1280, height := 720 })
      ∧ (options.viewport = Viewport.null → result.viewport = Viewport.null)
      ∧ (∀ s, options.viewport = Viewport.size s → result.viewport = Viewport.size s)
      ∧ (options.geolocation = none → result.geolocation = none)
      ∧ (∀ g, options.geolocation = some g →
          result.geolocation = some { g with accuracy := some (g.accuracy.getD 0) }
          ∧ -180 ≤ g.longitude ∧ g.longitude ≤ 180
          ∧ -90 ≤ g.latitude ∧ g.latitude ≤ 90
          ∧ 0 ≤ g.accuracy.getD 0)
      ∧ result.ignoreHTTPSErrors = options.ignoreHTTPSErrors
      ∧ result.javaScriptEnabled = options.javaScriptEnabled
      ∧ result.bypassCSP = options.bypassCSP
      ∧ result.userAgent = options.userAgent
      ∧ result.locale = options.locale
      ∧ result.timezoneId = options.timezoneId
      ∧ result.permissions = options.permissions
      ∧ result.extraHTTPHeaders = options.extraHTTPHeaders
      ∧ result.offline = options.offline
      ∧ result.httpCredentials = options.httpCredentials
      ∧ result.deviceScaleFactor = options.deviceScaleFactor
      ∧ result.isMobile = options.isMobile
      ∧ result.hasTouch = options.hasTouch)
    ∧ (∀ g, options.geolocation = some g →
        (g.longitude < -180 ∨ g.longitude > 180 →
          validateBrowserContextOptions options
            = Except.error (ValidationError.invalidLongitude g.longitude))
        ∧ (-180 ≤ g.longitude → g.longitude ≤ 180 →
            g.latitude < -90 ∨ g.latitude > 90 →
            validateBrowserContextOptions options
              = Except.error (ValidationError.invalidLatitude g.latitude))
        ∧ (-180 ≤ g.longitude → g.longitude ≤ 180 →
            -90 ≤ g.latitude → g.latitude ≤ 90 →
            g.accuracy.getD 0 < 0 →
            validateBrowserContextOptions options
              = Except.error (ValidationError.invalidAccuracy (g.accuracy.getD 0)))) := by
  constructor
  · intro result h
    cases hg : options.geolocation with
    | none =>
      rw [validate_geolocation_none options hg] at h
      injection h with h
      subst h
      refine ⟨fun hv₂ => by simp [defaultViewport, hv₂],
        fun hv₂ => by simp [defaultViewport, hv₂],
        fun s hv₂ => by simp [defaultViewport, hv₂],
        fun _ => rfl,
        fun g₂ hg₂ => absurd hg₂ (by simp),
        rfl, rfl, rfl, rfl, rfl, rfl, rfl, by simp [mapVerifyHeaders_eq],
        rfl, rfl, rfl, rfl, rfl⟩
    | some g =>
      cases hv : verifyGeolocation g with
      | error e =>
        rw [validate_geolocation_error options g e hg hv] at h
        exact absurd h (by simp)
      | ok g' =>
        rw [validate_geolocation_ok options g g' hg hv] at h
        injection h with h
        subst h
        obtain ⟨hb₁, hb₂, hb₃, hb₄, hb₅, hg'⟩ := (verifyGeolocation_ok_iff g g').mp hv
        refine ⟨fun hv₂ => by simp [defaultViewport, hv₂],
          fun hv₂ => by simp [defaultViewport, hv₂],
          fun s hv₂ => by simp [defaultViewport, hv₂],
          fun hgg => absurd hgg (by simp), ?_,
          rfl, rfl, rfl, rfl, rfl, rfl, rfl, by simp [mapVerifyHeaders_eq],
          rfl, rfl, rfl, rfl, rfl⟩
        intro g₂ hg₂
        have hgeq : g₂ = g := by
          injection hg₂ with hh
          exact hh.symm
        subst hgeq
        refine ⟨?_, hb₁, hb₂, hb₃, hb₄, hb₅⟩
        show some g' = some _
        rw [hg']
  · intro g hg
    refine ⟨?_, ?_, ?_⟩
    · intro hlon
      have hv : verifyGeolocation g
          = Except.error (ValidationError.invalidLongitude g.longitude) := by
        unfold verifyGeolocation
        rw [if_pos hlon]
      exact validate_geolocation_error options g _ hg hv
    · intro h₁ h₂ hlat
      have hv : verifyGeolocation g
          = Except.error (ValidationError.invalidLatitude g.latitude) := by
        unfold verifyGeolocation
        rw [if_neg (not_or.mpr ⟨not_lt.mpr h₁, not_lt.mpr h₂⟩), if_pos hlat]
      exact validate_geolocation_error options g _ hg hv
    · intro h₁ h₂ h₃ h₄ hacc
      have hv : verifyGeolocation g
          = Except.error (ValidationError.invalidAccuracy (g.accuracy.getD 0)) := by
        unfold verifyGeolocation
        rw [if_neg (not_or.mpr ⟨not_lt.mpr h₁, not_lt.mpr h₂⟩),
          if_neg (not_or.mpr ⟨not_lt.mpr h₃, not_lt.mpr h₄⟩), if_pos hacc]
      exact validate_geolocation_error options g _ hg hv

/-- A concrete options record: missing viewport, valid geolocation without
accuracy, every other field absent. -/
def sampleOptions : BrowserContextOptions :=
  { viewport := Viewport.undef
    ignoreHTTPSErrors := none
    javaScriptEnabled := none
    bypassCSP := none
    userAgent := none
    locale := none
    timezoneId := none
    geolocation := some { longitude := 10, latitude := 20, accuracy := none }
    permissions := none
    extraHTTPHeaders := none
    offline := none
    httpCredentials := none
    deviceScaleFactor := none
    isMobile := none
    hasTouch := none }

/-- The expected validation result for `sampleOptions`. -/
def sampleValidated : BrowserContextOptions :=
  { sampleOptions with
    viewport := Viewport.size { width := 1280, height := 720 }
    geolocation := some { longitude := 10, latitude := 20, accuracy := some 0 } }

/-- `sampleOptions` with an out-of-range longitude. -/
def badGeoOptions : BrowserContextOptions :=
  { sampleOptions with
    geolocation := some { longitude := -200, latitude := 0, accuracy := none } }

/-- Witness for C10 at concrete inputs: the missing viewport becomes the
default 1280x720, the geolocation accuracy defaults to 0, and an out-of-range
longitude fails validation. -/
theorem validateBrowserContextOptions_spec_witness :
    validateBrowserContextOptions sampleOptions = Except.ok sampleValidated
    ∧ sampleValidated.viewport = Viewport.size { width := 1280, height := 720 }
    ∧ sampleValidated.geolocation
        = some { longitude := 10, latitude := 20, accuracy := some 0 }
    ∧ validateBrowserContextOptions badGeoOptions
        = Except.error (ValidationError.invalidLongitude (-200)) := by
  have h₁ := (validateBrowserContextOptions_spec sampleOptions).1 sampleValidated (by rfl)
  have h₂ := ((validateBrowserContextOptions_spec badGeoOptions).2
      { longitude := -200, latitude := 0, accuracy := none } (by rfl)).1
      (Or.inl (by norm_num))
  have h₃ := (h₁.2.2.2.2.1 { longitude := 10, latitude := 20, accuracy := none } (by rfl)).1
  exact ⟨by rfl, h₁.1 (by rfl), h₃, h₂⟩

end Playwright
